import Mathlib

/-!
Verification of the TowerDefense simulation core (Nubet/TowerDefense).

The Python sources (`const.py`, `enemy_data.py`, `turret_data.py`, `enemy.py`,
`turret.py`, `world.py`, and the game-logic slices of `main.py`) are shallowly
embedded below.  Conventions used throughout:

* Python floats are modelled as `ℚ` (all literals in the data tables are
  decimal), Python ints as `ℤ` or `ℕ`, `pygame.time.get_ticks()` as an
  explicit `now : ℕ` argument.
* `pygame.sprite.Sprite.kill()` (removal from the live sprite group) is
  modelled by an `alive : Bool` flag on the enemy; the counters and money
  updates are carried in an explicit `World` record exactly as the source
  mutates `world.…` fields.
* Rendering-only state (images, rects, fonts, the rotation angle, the range
  hitbox surface) is omitted: it is never read by the simulation logic.
* `Vector2.length()` (a square root, irrational over `ℚ`) appears in
  `Enemy.move`; it is passed in as an explicit `norm` argument so that the
  translation of the movement arithmetic stays literal.  In
  `Turret.select_target` the source compares `sqrt (dx² + dy²) < range`; we
  compare `dx² + dy² < range²`, which is equivalent whenever `range ≥ 0`
  (every range in `TURRET_DATA` is positive).
* `random.shuffle` in `World.process_enemies` permutes the roster in place;
  the embedding keeps the pre-shuffle order.  No property proved here depends
  on the roster order, only on its multiset of entries / length.
* A Python `IndexError` (list subscript out of range) is modelled by returning
  `none` from the operation that would raise it.
-/

namespace TowerDefense

/-! ## const.py -/

def SPAWN_COOLDOWN : ℕ := 800
def HEALTH : ℤ := 100
def MONEY : ℤ := 700
def UPGRADE_COST : ℤ := 100
def SELL_RETURN_RATE : ℚ := 3 / 10
def TIDAL_MULTIPLIER : ℚ := 5 / 4
def TIDAL_DURATION : ℕ := 30000
def TIDAL_UPGRADE_COST : ℤ := 50
def WAVE_COMPLETE_REWARD : ℤ := 50

/-- Python's `int(...)` conversion: truncation toward zero. -/
def pyInt (q : ℚ) : ℤ := if 0 ≤ q then ⌊q⌋ else ⌈q⌉

/-! ## enemy_data.py -/

inductive EnemyType
  | weak
  | medium
  | strong
  | elite
deriving DecidableEq, Repr

/-- ENEMY_DATA "health" column. -/
def enemyBaseHealth : EnemyType → ℚ
  | .weak => 10
  | .medium => 15
  | .strong => 20
  | .elite => 30

/-- ENEMY_DATA "speed" column. -/
def enemyBaseSpeed : EnemyType → ℚ
  | .weak => 1
  | .medium => 3 / 2
  | .strong => 2
  | .elite => 3

/-- ENEMY_DATA "damage_inflicted" column. -/
def enemyDamageInflicted : EnemyType → ℤ
  | .weak => 1
  | .medium => 5
  | .strong => 10
  | .elite => 15

/-- ENEMY_DATA "kill_reward" column. -/
def enemyKillReward : EnemyType → ℤ
  | .weak => 10
  | .medium => 15
  | .strong => 20
  | .elite => 25

/-- One entry of WAVE_ENEMY_DATA: spawn counts per enemy type for one wave. -/
def waveCounts (wk md st el : ℕ) : EnemyType → ℕ
  | .weak => wk
  | .medium => md
  | .strong => st
  | .elite => el

/-- WAVE_ENEMY_DATA from enemy_data.py: 16 waves. -/
def WAVE_ENEMY_DATA : List (EnemyType → ℕ) :=
  [waveCounts 8 0 0 0, waveCounts 15 0 0 0, waveCounts 30 0 0 0,
   waveCounts 20 5 0 0, waveCounts 30 15 0 0, waveCounts 5 20 0 0,
   waveCounts 15 15 4 0, waveCounts 20 25 5 0, waveCounts 10 20 15 0,
   waveCounts 15 10 5 0, waveCounts 0 100 0 0, waveCounts 5 10 12 2,
   waveCounts 0 15 10 5, waveCounts 20 0 25 10, waveCounts 15 15 15 15,
   waveCounts 25 25 25 25]

/-! ## turret_data.py -/

inductive TurretType
  | standard
  | camo
  | purple
deriving DecidableEq, Repr

/-- One level entry of TURRET_DATA.  The source dictionaries carry
`slow_amount` / `slow_duration` keys only for the purple turret and the code
reads them with `.get(key, 0)`; we store the defaulted values directly. -/
structure TurretLevelData where
  range : ℤ
  cooldown : ℕ
  damage : ℤ
  animation_steps : ℕ
  slow_amount : ℚ
  slow_duration : ℕ
deriving DecidableEq, Repr

/-- TURRET_DATA from turret_data.py: four level entries per turret family. -/
def TURRET_DATA : TurretType → List TurretLevelData
  | .standard =>
      [⟨100, 1500, 5, 8, 0, 0⟩, ⟨120, 1200, 5, 8, 0, 0⟩,
       ⟨130, 1000, 5, 8, 0, 0⟩, ⟨150, 900, 5, 8, 0, 0⟩]
  | .camo =>
      [⟨110, 1600, 5, 8, 0, 0⟩, ⟨130, 1300, 5, 8, 0, 0⟩,
       ⟨140, 1100, 5, 8, 0, 0⟩, ⟨160, 1000, 5, 8, 0, 0⟩]
  | .purple =>
      [⟨120, 1700, 5, 11, 3 / 10, 500⟩, ⟨140, 1600, 7, 11, 2 / 5, 1000⟩,
       ⟨160, 1500, 8, 11, 1 / 2, 1500⟩, ⟨180, 1400, 10, 11, 1 / 2, 2000⟩]

/-- Source `TURRET_DATA[turret_type][level - 1]`.  Every access in the source is
guarded (`__init__` uses level 1; `upgrade` checks `turret_level < len(...)`),
so the default entry is never reached on the source's executions. -/
def turretLevelData (tt : TurretType) (level : ℕ) : TurretLevelData :=
  (TURRET_DATA tt).getD (level - 1) ⟨0, 0, 0, 0, 0, 0⟩

/-- turret_buy_costs from const.py. -/
def turret_buy_costs : TurretType → ℤ
  | .standard => 200
  | .camo => 200
  | .purple => 500

/-! ## world.py — the `World` record

Only the simulation fields are carried: `tile_map`, `level_data` and the map
image are consumed by rendering / placement validation, which the claims
parameterize over. -/

structure World where
  level : ℕ
  health : ℤ
  money : ℤ
  waypoints : List (ℚ × ℚ)
  enemy_list : List EnemyType
  spawned_enemies : ℕ
  killed_enemies : ℕ
  missed_enemies : ℕ
deriving DecidableEq, Repr

/-- Source `World.is_wave_completed`: `(killed + missed) == len(enemy_list)`. -/
def World.is_wave_completed (w : World) : Bool :=
  w.killed_enemies + w.missed_enemies == w.enemy_list.length

/-- Source `World.reset_values`: clears the roster, bumps the level, zeroes the
counters. -/
def World.reset_values (w : World) : World :=
  { w with enemy_list := [], level := w.level + 1,
           spawned_enemies := 0, killed_enemies := 0, missed_enemies := 0 }

/-- Flat expansion of one wave's composition table, in the source dict's
insertion order (weak, medium, strong, elite). -/
def expandWave (counts : EnemyType → ℕ) : List EnemyType :=
  List.replicate (counts .weak) .weak ++ List.replicate (counts .medium) .medium
    ++ List.replicate (counts .strong) .strong
    ++ List.replicate (counts .elite) .elite

/-- Source `World.process_enemies`: looks up `WAVE_ENEMY_DATA[self.level - 1]` and
appends the expanded roster onto `enemy_list`.  An out-of-range level raises
`IndexError` in Python, modelled by `none`.  The source then calls
`random.shuffle` on the list, which permutes its order only; the embedding
keeps the unshuffled order (no proved property depends on roster order). -/
def World.process_enemies (w : World) : Option World :=
  match WAVE_ENEMY_DATA[w.level - 1]? with
  | none => none
  | some counts => some { w with enemy_list := w.enemy_list ++ expandWave counts }

/-- Source `len(WAVE_ENEMY_DATA)`, used as `Game.MAX_LEVELS` in main.py. -/
def MAX_LEVELS : ℕ := WAVE_ENEMY_DATA.length

/-! ## enemy.py — the `Enemy` record and its per-tick operations -/

inductive Difficulty
  | easy
  | normal
  | hard
deriving DecidableEq, Repr

/-- Difficulty health multiplier selected in `Enemy.__init__`. -/
def healthMultiplier : Difficulty → ℚ
  | .easy => 3 / 4
  | .normal => 1
  | .hard => 5 / 4

/-- Difficulty speed multiplier selected in `Enemy.__init__`. -/
def speedMultiplier : Difficulty → ℚ
  | .easy => 9 / 10
  | .normal => 1
  | .hard => 6 / 5

/-- The simulation state of one enemy sprite.  `alive` models membership in
the pygame sprite groups (`kill()` clears it); image/rect/angle are
rendering-only and omitted. -/
structure Enemy where
  enemy_type : EnemyType
  waypoints : List (ℚ × ℚ)
  pos : ℚ × ℚ
  target_waypoint : ℕ
  health : ℚ
  max_health : ℚ
  original_speed : ℚ
  speed : ℚ
  damage_inflicted : ℤ
  is_slowed : Bool
  slow_timer : ℕ
  alive : Bool
deriving DecidableEq, Repr

/-- Source `Enemy.__init__`: stats from ENEMY_DATA scaled by the difficulty
multipliers, position at `waypoints[0]`, `target_waypoint = 1`, no slow.
(The source indexes `waypoints[0]` unguarded; levels always provide ≥ 2
waypoints, and `headD` supplies a default never reached on those inputs.) -/
def mkEnemy (et : EnemyType) (waypoints : List (ℚ × ℚ)) (difficulty : Difficulty) : Enemy :=
  { enemy_type := et
    waypoints := waypoints
    pos := waypoints.headD (0, 0)
    target_waypoint := 1
    health := enemyBaseHealth et * healthMultiplier difficulty
    max_health := enemyBaseHealth et * healthMultiplier difficulty
    original_speed := enemyBaseSpeed et * speedMultiplier difficulty
    speed := enemyBaseSpeed et * speedMultiplier difficulty
    damage_inflicted := enemyDamageInflicted et
    is_slowed := false
    slow_timer := 0
    alive := true }

/-- Source `Enemy.move(world)`.  `norm` is `pygame.math.Vector2.length` (the
Euclidean norm, irrational over `ℚ`), passed in abstractly; the escape branch
and the waypoint bookkeeping are independent of it.
`movement.normalize() * s` is translated literally as the componentwise
`movement / dist * s`. -/
def Enemy.move (norm : ℚ × ℚ → ℚ) (e : Enemy) (w : World) : Enemy × World :=
  if h : e.target_waypoint < e.waypoints.length then
    let target := e.waypoints.get ⟨e.target_waypoint, h⟩
    let movement := (target.1 - e.pos.1, target.2 - e.pos.2)
    let dist := norm movement
    if dist ≥ e.speed then
      ({ e with pos := (e.pos.1 + movement.1 / dist * e.speed,
                        e.pos.2 + movement.2 / dist * e.speed) }, w)
    else if dist ≠ 0 then
      ({ e with pos := (e.pos.1 + movement.1 / dist * dist,
                        e.pos.2 + movement.2 / dist * dist),
                target_waypoint := e.target_waypoint + 1 }, w)
    else
      ({ e with target_waypoint := e.target_waypoint + 1 }, w)
  else
    -- enemy has reached the end of the path: escape event
    ({ e with alive := false },
     { w with health := w.health - e.damage_inflicted,
              missed_enemies := w.missed_enemies + 1 })

/-- Source `Enemy.check_if_alive(world)`: the kill event. -/
def Enemy.check_if_alive (e : Enemy) (w : World) : Enemy × World :=
  if e.health ≤ 0 then
    ({ e with alive := false },
     { w with killed_enemies := w.killed_enemies + 1,
              money := w.money + enemyKillReward e.enemy_type })
  else (e, w)

/-- Source `Enemy.apply_slow(slow_amount, slow_duration)` at time `now`. -/
def Enemy.apply_slow (e : Enemy) (now : ℕ) (slow_amount : ℚ) (slow_duration : ℕ) : Enemy :=
  if e.is_slowed then e
  else
    { e with is_slowed := true
             speed := e.original_speed * (1 - slow_amount)
             slow_timer := now + slow_duration }

/-- Source `Enemy.update_slow_effect()` at time `now`. -/
def Enemy.update_slow_effect (e : Enemy) (now : ℕ) : Enemy :=
  if e.is_slowed ∧ now > e.slow_timer then
    { e with is_slowed := false, speed := e.original_speed }
  else e

/-- Source `Enemy.update(world)`: move → rotate → check_if_alive →
update_slow_effect.  `rotate` only updates the sprite image/angle (rendering)
and is the identity on the modelled state. -/
def Enemy.update (norm : ℚ × ℚ → ℚ) (now : ℕ) (e : Enemy) (w : World) : Enemy × World :=
  let mv := e.move norm w
  let ck := mv.1.check_if_alive mv.2
  (ck.1.update_slow_effect now, ck.2)

/-! ## turret.py — the `Turret` record and its operations -/

/-- ANIMATION_DELAY from turret.py. -/
def ANIMATION_DELAY : ℕ := 15

/-- The simulation state of one turret.  `target` holds the enemy the source's
Python reference points at (the value after the acquisition damage/slow was
applied to it); sprite sheets, images, the rotation angle, the `selected` flag
and the range hitbox are rendering-only and omitted.  The per-instance
constants `TIDAL_MULTIPLIER` / `TIDAL_DURATION` are copies of the const.py
globals and are read from those directly. -/
structure Turret where
  turret_type : TurretType
  turret_level : ℕ
  base_range : ℤ
  base_cooldown : ℕ
  base_damage : ℤ
  range : ℤ
  cooldown : ℕ
  damage : ℤ
  last_shot : ℕ
  target : Option Enemy
  animation_steps : ℕ
  slow_amount : ℚ
  slow_duration : ℕ
  x : ℚ
  y : ℚ
  frame_index : ℕ
  update_time : ℕ
  tidal_active : Bool
  tidal_used : Bool
  tidal_end_time : ℕ
deriving DecidableEq, Repr

/-- Source `Turret.__init__` at construction time `now` (= `pygame.time.get_ticks()`
for `last_shot` / `update_time`): level 1, stats from TURRET_DATA, slow
parameters only for the purple family, tidal flags clear. -/
def mkTurret (tt : TurretType) (x y : ℚ) (now : ℕ) : Turret :=
  let d := turretLevelData tt 1
  { turret_type := tt
    turret_level := 1
    base_range := d.range
    base_cooldown := d.cooldown
    base_damage := d.damage
    range := d.range
    cooldown := d.cooldown
    damage := d.damage
    last_shot := now
    target := none
    animation_steps := d.animation_steps
    slow_amount := if tt = .purple then d.slow_amount else 0
    slow_duration := if tt = .purple then d.slow_duration else 0
    x := x
    y := y
    frame_index := 0
    update_time := now
    tidal_active := false
    tidal_used := false
    tidal_end_time := 0 }

/-- The source's in-range test `sqrt (x_dist² + y_dist²) < self.range`,
written square-root-free: for `range ≥ 0` (true of every TURRET_DATA entry)
`sqrt s < r ↔ s < r²`. -/
def Turret.in_range (t : Turret) (e : Enemy) : Prop :=
  (e.pos.1 - t.x) ^ 2 + (e.pos.2 - t.y) ^ 2 < ((t.range : ℚ)) ^ 2

instance (t : Turret) (e : Enemy) : Decidable (t.in_range e) := by
  unfold Turret.in_range; infer_instance

/-- The body of `select_target`'s hit: damage is inflicted immediately at
acquisition, then the slow effect is applied when the turret is purple with
positive slow parameters (turret.py lines 234-238). -/
def Turret.hit (t : Turret) (now : ℕ) (e : Enemy) : Enemy :=
  let e1 := { e with health := e.health - (t.damage : ℚ) }
  if t.turret_type = .purple ∧ 0 < t.slow_amount ∧ 0 < t.slow_duration then
    e1.apply_slow now t.slow_amount t.slow_duration
  else e1

/-- Source `Turret.select_target(enemy_group)`: scan the group in iteration order;
on the first enemy with `health > 0` inside the range, set it as the target,
inflict the damage (and slow, if applicable) and `break`. -/
def Turret.select_target (t : Turret) (now : ℕ) : List Enemy → Turret × List Enemy
  | [] => (t, [])
  | e :: rest =>
    if 0 < e.health then
      if t.in_range e then
        let e1 := t.hit now e
        ({ t with target := some e1 }, e1 :: rest)
      else
        let p := t.select_target now rest
        (p.1, e :: p.2)
    else
      let p := t.select_target now rest
      (p.1, e :: p.2)

/-- Source `Turret.play_animation()` at time `now`.  `len(self.animation_list)` is
`self.animation_steps`; the `original_image` update is rendering-only. -/
def Turret.play_animation (t : Turret) (now : ℕ) : Turret :=
  if (now : ℤ) - t.update_time > ANIMATION_DELAY then
    if t.frame_index < t.animation_steps - 1 then
      { t with update_time := now, frame_index := t.frame_index + 1 }
    else
      { t with update_time := now, frame_index := 0, last_shot := now, target := none }
  else t

/-- Source `Turret.upgrade()`: silently refuses past the last TURRET_DATA entry;
otherwise bumps the level and reloads base and current stats (and the slow
parameters for the purple family). -/
def Turret.upgrade (t : Turret) : Turret :=
  if t.turret_level < (TURRET_DATA t.turret_type).length then
    let lvl := t.turret_level + 1
    let d := turretLevelData t.turret_type lvl
    { t with turret_level := lvl
             base_range := d.range
             base_cooldown := d.cooldown
             base_damage := d.damage
             range := d.range
             cooldown := d.cooldown
             damage := d.damage
             slow_amount := if t.turret_type = .purple then d.slow_amount else 0
             slow_duration := if t.turret_type = .purple then d.slow_duration else 0 }
  else t

/-- Source `Turret.tidally_upgrade()` at time `now`: guarded by
`not tidal_used and not tidal_active`; multiplies the base range and damage by
TIDAL_MULTIPLIER with Python `int(...)` truncation, marks the upgrade active
and used, and schedules the expiry. -/
def Turret.tidally_upgrade (t : Turret) (now : ℕ) : Turret :=
  if ¬ t.tidal_used ∧ ¬ t.tidal_active then
    { t with range := pyInt ((t.base_range : ℚ) * TIDAL_MULTIPLIER)
             damage := pyInt ((t.base_damage : ℚ) * TIDAL_MULTIPLIER)
             tidal_active := true
             tidal_used := true
             tidal_end_time := now + TIDAL_DURATION }
  else t

/-- Source `Turret.reset_tidal_upgrade()`: restores current range/damage/cooldown to
the base values and clears the active flag and expiry.  (It does not touch
`tidal_used`.) -/
def Turret.reset_tidal_upgrade (t : Turret) : Turret :=
  { t with range := t.base_range
           damage := t.base_damage
           cooldown := t.base_cooldown
           tidal_active := false
           tidal_end_time := 0 }

/-- Source `Turret.update(enemy_group)` at time `now`: expire the tidal upgrade,
then either advance the firing animation (when a target is held) or — when the
cooldown has elapsed since `last_shot` — scan for a new target. -/
def Turret.update (t : Turret) (now : ℕ) (enemies : List Enemy) : Turret × List Enemy :=
  let t1 := if t.tidal_active ∧ now ≥ t.tidal_end_time then t.reset_tidal_upgrade else t
  match t1.target with
  | some _ => (t1.play_animation now, enemies)
  | none =>
      if (now : ℤ) - t1.last_shot > t1.cooldown then t1.select_target now enemies
      else (t1, enemies)

/-! ## main.py — the game-logic slices of the `Game` class

Rendering, asset loading, window scaling and button hit-testing are omitted;
each modelled operation corresponds to the state-mutating body of one of the
source's input/frame branches (the branch condition "the button was clicked"
is the occurrence of the operation itself). -/

inductive GState
  | menu
  | game
  | game_over
deriving DecidableEq, Repr

/-- The `Game`-level mutable state read or written by the modelled logic.
`selected_turret` is the source's Python reference into `turret_group`,
modelled as an index into `turrets`. -/
structure GameState where
  world : World
  state : GState
  game_status : ℤ
  wave_started : Bool
  last_enemy_spawn : ℕ
  placing_turrets : Bool
  current_turret_type : TurretType
  selected_turret : Option ℕ
  placement_message : String
  message_timer : ℕ
  turrets : List Turret
  enemies : List Enemy
deriving DecidableEq, Repr

/-- The enemy-spawn branch of `Game.draw_game` (main.py lines 805-819):
while a wave is running, once SPAWN_COOLDOWN has elapsed and unspawned roster
entries remain, instantiate `enemy_list[spawned_enemies]` and advance the
spawn counter and timestamp. -/
def Game.spawnStep (now : ℕ) (difficulty : Difficulty) (g : GameState) : GameState :=
  if g.wave_started then
    if (now : ℤ) - g.last_enemy_spawn > SPAWN_COOLDOWN then
      if h : g.world.spawned_enemies < g.world.enemy_list.length then
        let et := g.world.enemy_list.get ⟨g.world.spawned_enemies, h⟩
        { g with enemies := g.enemies ++ [mkEnemy et g.world.waypoints difficulty]
                 world := { g.world with spawned_enemies := g.world.spawned_enemies + 1 }
                 last_enemy_spawn := now }
      else g
    else g
  else g

/-- The wave-completion branch of `Game.draw_game` (main.py lines 827-841):
when `is_wave_completed()`, either declare the win (`level > MAX_LEVELS`) or
credit the wave bonus, stop the wave, reset the world for the next wave,
rebuild the roster and reset every turret's tidal upgrade.  `none` models the
`IndexError` raised inside `process_enemies` when the level has run past
WAVE_ENEMY_DATA. -/
def Game.waveCompleteCheck (now : ℕ) (g : GameState) : Option GameState :=
  if g.world.is_wave_completed then
    if g.world.level > MAX_LEVELS then
      some { g with game_status := 1, state := .game_over }
    else
      let w1 := { g.world with money := g.world.money + WAVE_COMPLETE_REWARD }
      match w1.reset_values.process_enemies with
      | none => none
      | some w2 =>
          some { g with world := w2
                        wave_started := false
                        last_enemy_spawn := now
                        turrets := g.turrets.map Turret.reset_tidal_upgrade }
  else some g

/-- Source `Game.skip_wave()` (main.py lines 631-660): no-op unless a wave is
running; otherwise remove every live enemy while accumulating its
`damage_inflicted` as a health penalty, credit the wave-complete reward, and
run the same reset sequence as natural completion (stop the wave, reset the
spawn timestamp, `reset_values`, `process_enemies`, tidal resets).  `none`
models the `IndexError` in `process_enemies` past the last wave. -/
def Game.skip_wave (now : ℕ) (g : GameState) : Option GameState :=
  if ¬ g.wave_started then some g
  else
    let total_penalty := (g.enemies.map (fun e => e.damage_inflicted)).sum
    let w0 := { g.world with health := g.world.health - total_penalty }
    let w1 := { w0 with money := w0.money + WAVE_COMPLETE_REWARD }
    match w1.reset_values.process_enemies with
    | none => none
    | some w2 =>
        some { g with world := w2
                      enemies := []
                      wave_started := false
                      last_enemy_spawn := now
                      turrets := g.turrets.map Turret.reset_tidal_upgrade }

/-- The tidal-upgrade button branch of `Game.draw_game` (main.py lines
920-941), entered when the button is clicked: requires a running wave, a
selected turret that has neither used nor currently holds a tidal upgrade,
and sufficient money; every failing check leaves the game state unchanged
except for the transient feedback message. -/
def Game.tidalUpgradeCommand (now : ℕ) (g : GameState) : GameState :=
  if g.wave_started then
    match g.selected_turret with
    | none => g
    | some i =>
        match g.turrets[i]? with
        | none => g
        | some t =>
            if ¬ t.tidal_used ∧ ¬ t.tidal_active then
              if g.world.money ≥ TIDAL_UPGRADE_COST then
                { g with world := { g.world with money := g.world.money - TIDAL_UPGRADE_COST }
                         turrets := g.turrets.set i (t.tidally_upgrade now) }
              else
                { g with placement_message := "Not enough money for tidal upgrade!"
                         message_timer := now }
            else g
  else
    { g with placement_message := "Start new round to tidally upgrade turret"
             message_timer := now }

/-! ### The money-touching operations, projected onto the money balance

Each constructor records one of the source's guarded transactions; the
Booleans stand for the validation outcomes that do not involve money
(placement validity, selection/level/tidal eligibility), which the source
checks with the guard structure reproduced in `applyMoneyOp`. -/

inductive MoneyOp
  /-- Turret purchase, `Game.handle_events` (main.py lines 585-596):
  `money >= buy_cost` is checked first, then `create_turret` may still fail
  on an invalid tile (`ok = false`), in which case nothing is deducted. -/
  | buyTurret (tt : TurretType) (ok : Bool)
  /-- Permanent upgrade, `Game.draw_game` (main.py lines 899-918): reachable
  only with a selected, non-maxed turret; `eligible` is the
  `not tidal_active` guard, checked before the affordability check. -/
  | upgradeTurret (eligible : Bool)
  /-- Temporary upgrade, `Game.draw_game` (main.py lines 920-941):
  `eligible` is `wave_started and selected and not used and not active`,
  all checked before the affordability check. -/
  | tidalUpgrade (eligible : Bool)
  /-- Any credit: kill rewards, wave-complete bonuses and sell proceeds are
  all non-negative additions. -/
  | credit (amount : ℕ)

/-- The effect of one money-touching operation on the balance, with the
source's guard structure: every spend is committed only inside a passing
`money >= cost` comparison. -/
def applyMoneyOp (op : MoneyOp) (money : ℤ) : ℤ :=
  match op with
  | .buyTurret tt ok =>
      if money ≥ turret_buy_costs tt then
        if ok then money - turret_buy_costs tt else money
      else money
  | .upgradeTurret eligible =>
      if eligible then
        if money ≥ UPGRADE_COST then money - UPGRADE_COST else money
      else money
  | .tidalUpgrade eligible =>
      if eligible then
        if money ≥ TIDAL_UPGRADE_COST then money - TIDAL_UPGRADE_COST else money
      else money
  | .credit amount => money + amount

/-! ## Claim C8: slow-effect application and decay -/

/-- C8: for every enemy, `apply_slow(amount, duration)` with `amount ∈ (0,1]`
and `duration > 0` is a no-op when the enemy is already slowed (slow effects
neither stack nor refresh); otherwise it sets the current speed to
`base speed × (1 − amount)` and schedules the expiry at `now + duration`; and
`update_slow_effect` restores the current speed to the base speed and clears
the slow state exactly when the enemy is slowed and `now > expiry`. -/
theorem apply_slow_and_decay_spec (e : Enemy) (now : ℕ) (amount : ℚ) (duration : ℕ)
    (hamt : 0 < amount ∧ amount ≤ 1) (hdur : 0 < duration) :
    (e.is_slowed = true → e.apply_slow now amount duration = e) ∧
    (e.is_slowed = false →
      e.apply_slow now amount duration =
        { e with is_slowed := true
                 speed := e.original_speed * (1 - amount)
                 slow_timer := now + duration }) ∧
    (e.is_slowed = true → now > e.slow_timer →
      e.update_slow_effect now =
        { e with is_slowed := false, speed := e.original_speed }) ∧
    (¬ (e.is_slowed = true ∧ now > e.slow_timer) → e.update_slow_effect now = e) := by
  refine ⟨fun h => ?_, fun h => ?_, fun h h2 => ?_, fun h => ?_⟩ <;>
    simp [Enemy.apply_slow, Enemy.update_slow_effect, *]

/-- A live weak enemy with no slow effect, used to witness C8. -/
def c8Enemy : Enemy := mkEnemy .weak [(0, 0), (200, 0)] .normal

/-- Witness for C8: applying a 50% slow for 200 ms at time 1000 to an
unslowed enemy sets speed to half the base speed and expiry to 1200, and the
decay restores the base speed at time 1201. -/
theorem apply_slow_and_decay_spec_witness :
    c8Enemy.apply_slow 1000 (1 / 2) 200 =
      { c8Enemy with is_slowed := true
                     speed := c8Enemy.original_speed * (1 - 1 / 2)
                     slow_timer := 1000 + 200 } ∧
    (c8Enemy.apply_slow 1000 (1 / 2) 200).update_slow_effect 1201 =
      { c8Enemy.apply_slow 1000 (1 / 2) 200 with
          is_slowed := false
          speed := (c8Enemy.apply_slow 1000 (1 / 2) 200).original_speed } := by
  constructor
  · exact (apply_slow_and_decay_spec c8Enemy 1000 (1 / 2) 200
      (by norm_num) (by norm_num)).2.1 rfl
  · refine (apply_slow_and_decay_spec (c8Enemy.apply_slow 1000 (1 / 2) 200) 1201 (1 / 2) 200
      (by norm_num) (by norm_num)).2.2.1 ?_ ?_ <;>
      simp [c8Enemy, mkEnemy, Enemy.apply_slow]

/-! ## Claim C9: the tidal-upgrade numeric scenario -/

/-- A freshly placed level-1 standard turret (placed at tick 0). -/
def c9Turret : Turret := mkTurret .standard 0 0 0

/-- The same turret immediately after a tidal upgrade applied at tick 1000. -/
def c9Upgraded : Turret := c9Turret.tidally_upgrade 1000

/-- C9: applying the temporary upgrade to a level-1 standard turret (base
range 100, base damage 5) under multiplier 1.25 sets the current range to 125
and the current damage to int-truncated 6, and once the configured duration
has elapsed the update path restores the current range and damage to 100 and
5. -/
theorem tidal_upgrade_numeric_scenario :
    c9Turret.turret_level = 1 ∧
    c9Turret.base_range = 100 ∧ c9Turret.base_damage = 5 ∧
    TIDAL_MULTIPLIER = 5 / 4 ∧
    c9Upgraded.range = 125 ∧ c9Upgraded.damage = 6 ∧
    c9Upgraded.tidal_active = true ∧
    c9Upgraded.tidal_end_time = 1000 + TIDAL_DURATION ∧
    (c9Upgraded.update (1000 + TIDAL_DURATION) []).1.range = 100 ∧
    (c9Upgraded.update (1000 + TIDAL_DURATION) []).1.damage = 5 := by
  refine ⟨rfl, rfl, rfl, rfl, ?_, ?_, rfl, rfl, ?_, ?_⟩ <;>
    norm_num [c9Upgraded, c9Turret, mkTurret, turretLevelData, TURRET_DATA,
      Turret.tidally_upgrade, Turret.update, Turret.reset_tidal_upgrade,
      Turret.select_target, pyInt, TIDAL_MULTIPLIER, TIDAL_DURATION, ANIMATION_DELAY]

/-! ## Claim C2: the tidal used-flag is never reset

The claim says the used-this-cycle flag is reset when the wave cycle resets,
so that after each wave-completion reset the turret may apply one temporary
upgrade again.  `reset_tidal_upgrade` — the only reset the wave-completion
handler (main.py lines 838-839) performs — restores stats and clears
`tidal_active` but never touches `tidal_used`, so a turret that has used its
tidal upgrade once can never use it again for the rest of the session. -/

/-- A standard turret that applied its tidal upgrade during wave 1 and then
went through the wave-completion reset. -/
def c2AfterWave1 : Turret := ((mkTurret .standard 0 0 0).tidally_upgrade 5000).reset_tidal_upgrade

/-- C2, settled against the code: (a) `tidally_upgrade` takes effect at most
once while `tidal_used` stays set, which makes the first half of the claim
(at most one application between resets) true; but (b) the wave-cycle reset
preserves `tidal_used` for every turret, so (c) a turret that used its
upgrade in wave 1 still carries `tidal_used = true` after the reset and (d)
every later `tidally_upgrade` call is a permanent no-op — refuting the
claim's "may apply one temporary upgrade again in the new wave". -/
theorem tidal_used_flag_never_reset :
    (∀ (t : Turret) (now1 now2 : ℕ),
      (t.tidally_upgrade now1).tidally_upgrade now2 = t.tidally_upgrade now1) ∧
    (∀ t : Turret, t.reset_tidal_upgrade.tidal_used = t.tidal_used) ∧
    c2AfterWave1.tidal_used = true ∧
    (∀ now : ℕ, c2AfterWave1.tidally_upgrade now = c2AfterWave1) := by
  refine ⟨fun t now1 now2 => ?_, fun t => rfl, rfl, fun now => rfl⟩
  unfold Turret.tidally_upgrade
  by_cases h : ¬ t.tidal_used = true ∧ ¬ t.tidal_active = true
  · rw [if_pos h]
    simp
  · rw [if_neg h, if_neg h]

/-! ## Claim C3: an enemy can fire both the killed and the escaped event

The enemy that snaps onto the final waypoint stays in the sprite group (with
`target_waypoint = len(waypoints)`) until its next update; a turret firing in
the same frame can drop its health to ≤ 0.  On the next `Enemy.update`,
`move` fires the escape event (health penalty, `missed_enemies += 1`,
`kill()`) and returns — but `update` then still calls `check_if_alive`, which
fires the kill event as well (`killed_enemies += 1`, kill reward). -/

/-- A weak enemy sitting exactly on the final waypoint
(`target_waypoint = 2 = len(waypoints)`) whose health was reduced to 0 by a
turret in the previous frame. -/
def c3Enemy : Enemy :=
  { enemy_type := .weak
    waypoints := [(0, 0), (200, 0)]
    pos := (200, 0)
    target_waypoint := 2
    health := 0
    max_health := 10
    original_speed := 1
    speed := 1
    damage_inflicted := 1
    is_slowed := false
    slow_timer := 0
    alive := true }

/-- The world as it stands when `c3Enemy` is the last live enemy of wave 1. -/
def c3World : World :=
  { level := 1
    health := 100
    money := 700
    waypoints := [(0, 0), (200, 0)]
    enemy_list := List.replicate 8 .weak
    spawned_enemies := 8
    killed_enemies := 7
    missed_enemies := 0 }

/-- C3, refuted on the code: one `Enemy.update` on a zero-health enemy that
has already reached the end of the path fires BOTH events — the escape
penalty (`health -= damage_inflicted`, `missed_enemies += 1` in `move`) and
the kill credit (`killed_enemies += 1`, `money += kill_reward` in
`check_if_alive`) — whereas the claim says no enemy ever fires both.  The
statement holds for every `norm` because the escape branch never reads the
movement geometry. -/
theorem enemy_fires_both_killed_and_escaped : ∀ norm : ℚ × ℚ → ℚ,
    (Enemy.update norm 0 c3Enemy c3World).2.missed_enemies = c3World.missed_enemies + 1 ∧
    (Enemy.update norm 0 c3Enemy c3World).2.health = c3World.health - c3Enemy.damage_inflicted ∧
    (Enemy.update norm 0 c3Enemy c3World).2.killed_enemies = c3World.killed_enemies + 1 ∧
    (Enemy.update norm 0 c3Enemy c3World).2.money =
      c3World.money + enemyKillReward c3Enemy.enemy_type ∧
    (Enemy.update norm 0 c3Enemy c3World).1.alive = false := by
  intro norm
  norm_num [Enemy.update, Enemy.move, Enemy.check_if_alive, Enemy.update_slow_effect,
    c3Enemy, c3World, enemyKillReward]

/-! ## Claim C6: the wave-counter invariant fails on the same double event

With the 8th and last weak enemy of wave 1 in the `c3`-style state (health 0,
at the end of the path), its single update makes
`killed_enemies + missed_enemies = 9 > 8 = spawned_enemies = roster size`,
violating `killed + missed ≤ spawned`, and `is_wave_completed` — an exact
equality test — can then never become true although every spawned enemy is
resolved. -/

/-- The 8th weak enemy of wave 1: at the final waypoint with health 0. -/
def c6Enemy : Enemy :=
  { enemy_type := .weak
    waypoints := [(0, 0), (100, 0)]
    pos := (100, 0)
    target_waypoint := 2
    health := 0
    max_health := 10
    original_speed := 1
    speed := 1
    damage_inflicted := 1
    is_slowed := false
    slow_timer := 0
    alive := true }

/-- Wave 1 with all 8 enemies spawned, 7 killed, and `c6Enemy` still live. -/
def c6World : World :=
  { level := 1
    health := 100
    money := 760
    waypoints := [(0, 0), (100, 0)]
    enemy_list := List.replicate 8 .weak
    spawned_enemies := 8
    killed_enemies := 7
    missed_enemies := 0 }

/-- C6, refuted on the code: after the double killed+escaped event of the
last enemy, `killed_enemies + missed_enemies = 9` exceeds
`spawned_enemies = 8 = len(enemy_list)`, so the claimed invariant
`killed + missed ≤ spawned ≤ roster size` fails in a reachable state, and
`is_wave_completed` is false (and stays false: the counters only grow) even
though every roster entry has been spawned and resolved. -/
theorem wave_counter_invariant_fails : ∀ norm : ℚ × ℚ → ℚ,
    (Enemy.update norm 0 c6Enemy c6World).2.killed_enemies +
        (Enemy.update norm 0 c6Enemy c6World).2.missed_enemies = 9 ∧
    (Enemy.update norm 0 c6Enemy c6World).2.spawned_enemies = 8 ∧
    (Enemy.update norm 0 c6Enemy c6World).2.enemy_list.length = 8 ∧
    ¬ ((Enemy.update norm 0 c6Enemy c6World).2.killed_enemies +
        (Enemy.update norm 0 c6Enemy c6World).2.missed_enemies ≤
          (Enemy.update norm 0 c6Enemy c6World).2.spawned_enemies) ∧
    (Enemy.update norm 0 c6Enemy c6World).2.is_wave_completed = false := by
  intro norm
  norm_num [Enemy.update, Enemy.move, Enemy.check_if_alive, Enemy.update_slow_effect,
    World.is_wave_completed, c6Enemy, c6World]

/-! ## Claim C1: completing the final wave crashes instead of winning

On completing wave 16 (`MAX_LEVELS = len(WAVE_ENEMY_DATA) = 16`), the
wave-completion branch of `draw_game` sees `level = 16`, which is not
`> MAX_LEVELS`, so it takes the reset path: `reset_values` bumps the level to
17 and `process_enemies` immediately indexes `WAVE_ENEMY_DATA[16]` — an
`IndexError` on the 16-element table.  The won state is unreachable: the
level only ever exceeds `MAX_LEVELS` inside `reset_values`, which every
caller follows at once with the crashing `process_enemies`. -/

/-- The world at the instant wave 16 (the last wave) completes. -/
def c1World : World :=
  { level := 16
    health := 37
    money := 900
    waypoints := [(0, 0), (200, 0)]
    enemy_list := expandWave (waveCounts 25 25 25 25)
    spawned_enemies := 100
    killed_enemies := 71
    missed_enemies := 29 }

/-- The game state at the instant wave 16 completes. -/
def c1Game : GameState :=
  { world := c1World
    state := .game
    game_status := 0
    wave_started := true
    last_enemy_spawn := 0
    placing_turrets := false
    current_turret_type := .standard
    selected_turret := none
    placement_message := ""
    message_timer := 0
    turrets := []
    enemies := [] }

/-- C1, refuted on the code: with wave 16 complete the wave-completion check
raises (`none`, the modelled `IndexError` from
`WAVE_ENEMY_DATA[17 - 1]`) instead of transitioning to the won state, for
every frame timestamp; the win branch is not taken because `16 > 16` is
false.  The same lookup failure is pinned down explicitly. -/
theorem final_wave_completion_crashes :
    c1World.is_wave_completed = true ∧
    c1World.level = MAX_LEVELS ∧
    ¬ (c1World.level > MAX_LEVELS) ∧
    (∀ now : ℕ, Game.waveCompleteCheck now c1Game = none) ∧
    WAVE_ENEMY_DATA[(16 : ℕ)]? = none := by
  refine ⟨rfl, rfl, by norm_num [c1World, MAX_LEVELS, WAVE_ENEMY_DATA], fun now => ?_, rfl⟩
  rfl

/-! ## Claim C4: money never becomes negative -/

/-- Every single money-touching operation preserves non-negativity of the
balance: spends are guarded by the affordability comparison and credits only
add. -/
theorem applyMoneyOp_nonneg (op : MoneyOp) (money : ℤ) (h : 0 ≤ money) :
    0 ≤ applyMoneyOp op money := by
  rcases op with ⟨tt, ok⟩ | e | e | amount <;> simp only [applyMoneyOp]
  · split_ifs with h1 h2 <;>
      first
        | assumption
        | (rcases tt with _ | _ | _ <;> simp [turret_buy_costs] at h1 ⊢ <;> omega)
  · split_ifs with h1 h2 <;>
      first
        | assumption
        | (simp [UPGRADE_COST] at h2 ⊢; omega)
  · split_ifs with h1 h2 <;>
      first
        | assumption
        | (simp [TIDAL_UPGRADE_COST] at h2 ⊢; omega)
  · positivity

/-- C4: for every starting balance ≥ 0 and every sequence of spend/credit
operations, money never becomes negative; and each of the three spend
operations (turret purchase, permanent upgrade, temporary upgrade) attempted
with insufficient funds leaves money unchanged.  The last conjunct states
non-negativity preservation for the fully modelled temporary-upgrade command
on the whole game state. -/
theorem money_never_negative :
    (∀ (ops : List MoneyOp) (money : ℤ), 0 ≤ money →
      0 ≤ ops.foldl (fun m op => applyMoneyOp op m) money) ∧
    (∀ (money : ℤ) (tt : TurretType) (ok : Bool), money < turret_buy_costs tt →
      applyMoneyOp (.buyTurret tt ok) money = money) ∧
    (∀ (money : ℤ) (e : Bool), money < UPGRADE_COST →
      applyMoneyOp (.upgradeTurret e) money = money) ∧
    (∀ (money : ℤ) (e : Bool), money < TIDAL_UPGRADE_COST →
      applyMoneyOp (.tidalUpgrade e) money = money) ∧
    (∀ (now : ℕ) (g : GameState), 0 ≤ g.world.money →
      0 ≤ (Game.tidalUpgradeCommand now g).world.money) := by
  refine ⟨?_, ?_, ?_, ?_, ?_⟩
  · intro ops
    induction ops with
    | nil => intro money h; simpa using h
    | cons op rest ih =>
        intro money h
        simpa using ih (applyMoneyOp op money) (applyMoneyOp_nonneg op money h)
  · intro money tt ok h
    simp [applyMoneyOp, not_le.mpr h]
  · intro money e h
    simp [applyMoneyOp, not_le.mpr h]
  · intro money e h
    simp [applyMoneyOp, not_le.mpr h]
  · intro now g h
    unfold Game.tidalUpgradeCommand
    split
    · split
      · exact h
      · split
        · exact h
        · split_ifs with h1 h2
          · simp only []
            simp [TIDAL_UPGRADE_COST] at h2 ⊢
            omega
          · exact h
          · exact h
    · exact h

/-- A run of transactions from the initial 700: buy a purple turret (500),
fail to buy another standard one on an occupied tile, earn a kill reward,
fail a tidal upgrade out of eligibility, then take one. -/
def c4Ops : List MoneyOp :=
  [.buyTurret .purple true, .buyTurret .standard false, .credit 10,
   .tidalUpgrade false, .tidalUpgrade true]

/-- A running-wave state with 60 money and an eligible selected turret, used
to witness the money non-negativity of the modelled tidal-upgrade command. -/
def c4Game : GameState :=
  { world :=
      { level := 1
        health := 100
        money := 60
        waypoints := [(0, 0), (200, 0)]
        enemy_list := List.replicate 8 .weak
        spawned_enemies := 3
        killed_enemies := 1
        missed_enemies := 0 }
    state := .game
    game_status := 0
    wave_started := true
    last_enemy_spawn := 0
    placing_turrets := false
    current_turret_type := .standard
    selected_turret := some 0
    placement_message := ""
    message_timer := 0
    turrets := [mkTurret .standard 72 72 0]
    enemies := [] }

/-- Witness for C4 at concrete inputs: the sample transaction run from the
initial balance of 700 stays non-negative, each spend attempted with
insufficient funds (150 < 200, 80 < 100, 30 < 50) leaves money unchanged,
and the temporary-upgrade command keeps a non-negative balance. -/
theorem money_never_negative_witness :
    0 ≤ c4Ops.foldl (fun m op => applyMoneyOp op m) MONEY ∧
    applyMoneyOp (.buyTurret .standard true) 150 = 150 ∧
    applyMoneyOp (.upgradeTurret true) 80 = 80 ∧
    applyMoneyOp (.tidalUpgrade true) 30 = 30 ∧
    0 ≤ (Game.tidalUpgradeCommand 0 c4Game).world.money :=
  ⟨money_never_negative.1 c4Ops MONEY (by norm_num [MONEY]),
   money_never_negative.2.1 150 .standard true (by norm_num [turret_buy_costs]),
   money_never_negative.2.2.1 80 true (by norm_num [UPGRADE_COST]),
   money_never_negative.2.2.2.1 30 true (by norm_num [TIDAL_UPGRADE_COST]),
   money_never_negative.2.2.2.2 0 c4Game (by norm_num [c4Game])⟩

/-! ## Claim C10: the tidal-upgrade command is a no-op while no wave runs -/

/-- C10: whenever the apply-temporary-upgrade command fires while no wave is
in progress, the entire effect is the transient feedback message — the world
(including money), the turrets (stats and tidal flags) and the selection are
untouched, even when funds suffice and the selected turret is eligible. -/
theorem tidal_command_noop_without_wave (now : ℕ) (g : GameState)
    (h : g.wave_started = false) :
    Game.tidalUpgradeCommand now g =
      { g with placement_message := "Start new round to tidally upgrade turret"
               message_timer := now } ∧
    (Game.tidalUpgradeCommand now g).world = g.world ∧
    (Game.tidalUpgradeCommand now g).turrets = g.turrets ∧
    (Game.tidalUpgradeCommand now g).selected_turret = g.selected_turret := by
  refine ⟨?_, ?_, ?_, ?_⟩ <;> simp [Game.tidalUpgradeCommand, h]

/-- A paused game (between waves) with 700 money and an eligible selected
turret, used to witness C10. -/
def c10Game : GameState :=
  { world :=
      { level := 2
        health := 100
        money := 700
        waypoints := [(0, 0), (200, 0)]
        enemy_list := List.replicate 15 .weak
        spawned_enemies := 0
        killed_enemies := 0
        missed_enemies := 0 }
    state := .game
    game_status := 0
    wave_started := false
    last_enemy_spawn := 0
    placing_turrets := false
    current_turret_type := .standard
    selected_turret := some 0
    placement_message := ""
    message_timer := 0
    turrets := [mkTurret .standard 120 120 0]
    enemies := [] }

/-- Witness for C10: on `c10Game` — affordable (700 ≥ 50) and with an
unused, inactive selected turret — the command changes only the message
fields. -/
theorem tidal_command_noop_without_wave_witness :
    Game.tidalUpgradeCommand 5000 c10Game =
      { c10Game with placement_message := "Start new round to tidally upgrade turret"
                     message_timer := 5000 } ∧
    (Game.tidalUpgradeCommand 5000 c10Game).world = c10Game.world ∧
    (Game.tidalUpgradeCommand 5000 c10Game).turrets = c10Game.turrets ∧
    (Game.tidalUpgradeCommand 5000 c10Game).selected_turret = c10Game.selected_turret :=
  tidal_command_noop_without_wave 5000 c10Game rfl

/-! ## Claim C7: skip_wave -/

/-- A successful `process_enemies` only extends the roster; every other world
field is preserved. -/
theorem process_enemies_fields (w w' : World) (h : w.process_enemies = some w') :
    w'.level = w.level ∧ w'.health = w.health ∧ w'.money = w.money ∧
    w'.spawned_enemies = w.spawned_enemies ∧ w'.killed_enemies = w.killed_enemies ∧
    w'.missed_enemies = w.missed_enemies := by
  unfold World.process_enemies at h
  rcases hq : WAVE_ENEMY_DATA[w.level - 1]? with _ | counts <;> rw [hq] at h
  · exact absurd h (by simp)
  · obtain rfl : ({ w with enemy_list := w.enemy_list ++ expandWave counts } : World) = w' :=
      Option.some.injEq _ _ ▸ h
    exact ⟨rfl, rfl, rfl, rfl, rfl, rfl⟩

/-- C7: calling `skip_wave` while no wave is in progress changes nothing;
while a wave is in progress it removes every live enemy, deducts exactly the
sum of their damage-on-arrival values from the player's health, credits the
wave-complete money reward and no kill rewards (money changes by exactly
`WAVE_COMPLETE_REWARD`), and runs the same reset sequence as natural
completion (wave stopped, spawn timestamp reset, level bumped, counters
zeroed, tidal upgrades reset on every turret). -/
theorem skip_wave_spec (now : ℕ) :
    (∀ g : GameState, g.wave_started = false → Game.skip_wave now g = some g) ∧
    (∀ g g' : GameState, g.wave_started = true → Game.skip_wave now g = some g' →
      g'.world.health =
        g.world.health - (g.enemies.map (fun e => e.damage_inflicted)).sum ∧
      g'.enemies = [] ∧
      g'.world.money = g.world.money + WAVE_COMPLETE_REWARD ∧
      g'.world.level = g.world.level + 1 ∧
      g'.world.spawned_enemies = 0 ∧
      g'.world.killed_enemies = 0 ∧
      g'.world.missed_enemies = 0 ∧
      g'.wave_started = false ∧
      g'.last_enemy_spawn = now ∧
      g'.turrets = g.turrets.map Turret.reset_tidal_upgrade) := by
  constructor
  · intro g hw
    simp [Game.skip_wave, hw]
  · intro g g' hw hs
    unfold Game.skip_wave at hs
    rw [hw] at hs
    simp only [not_true, if_false, Bool.not_true, ite_false, reduceIte] at hs
    rcases hpe : ({ g.world with
        health := g.world.health - (g.enemies.map (fun e => e.damage_inflicted)).sum,
        money := g.world.money + WAVE_COMPLETE_REWARD
      } : World).reset_values.process_enemies with _ | w2
    · rw [hpe] at hs
      exact absurd hs (by simp)
    · rw [hpe] at hs
      have hfields := process_enemies_fields _ _ hpe
      obtain rfl :
          ({ g with
              world := w2
              enemies := []
              wave_started := false
              last_enemy_spawn := now
              turrets := g.turrets.map Turret.reset_tidal_upgrade } : GameState) = g' :=
        Option.some.injEq _ _ ▸ hs
      simp only [World.reset_values] at hfields
      exact ⟨hfields.2.1, rfl, hfields.2.2.1, hfields.1, hfields.2.2.2.1,
        hfields.2.2.2.2.1, hfields.2.2.2.2.2, rfl, rfl, rfl⟩

/-- The path used by the C7 witness scenario. -/
def c7Waypoints : List (ℚ × ℚ) := [(0, 0), (260, 0)]

/-- Mid-wave-4 state: 25 of 25 enemies spawned, 23 killed, and two live
enemies with damage-on-arrival 1 (weak) and 5 (medium). -/
def c7Game : GameState :=
  { world :=
      { level := 4
        health := 100
        money := 700
        waypoints := c7Waypoints
        enemy_list := expandWave (waveCounts 20 5 0 0)
        spawned_enemies := 25
        killed_enemies := 23
        missed_enemies := 0 }
    state := .game
    game_status := 0
    wave_started := true
    last_enemy_spawn := 0
    placing_turrets := false
    current_turret_type := .standard
    selected_turret := none
    placement_message := ""
    message_timer := 0
    turrets := [mkTurret .standard 120 120 0]
    enemies := [mkEnemy .weak c7Waypoints .normal, mkEnemy .medium c7Waypoints .normal] }

/-- The state `skip_wave` produces from `c7Game` at tick 0: health 94
(100 − 6), money 750 (700 + 50, no kill rewards), wave 5 roster rebuilt. -/
def c7Result : GameState :=
  { c7Game with
      world :=
        { level := 5
          health := 94
          money := 750
          waypoints := c7Waypoints
          enemy_list := expandWave (waveCounts 30 15 0 0)
          spawned_enemies := 0
          killed_enemies := 0
          missed_enemies := 0 }
      enemies := []
      wave_started := false
      last_enemy_spawn := 0
      turrets := [mkTurret .standard 120 120 0].map Turret.reset_tidal_upgrade }

/-- Witness for C7: skipping with the two live enemies of damage 1 and 5
deducts exactly 6 health, removes both without reward (money moves by the
wave bonus alone), and performs the full reset sequence. -/
theorem skip_wave_spec_witness :
    Game.skip_wave 0 c7Game = some c7Result ∧
    c7Result.world.health =
      c7Game.world.health - (c7Game.enemies.map (fun e => e.damage_inflicted)).sum ∧
    (c7Game.enemies.map (fun e => e.damage_inflicted)).sum = 6 ∧
    c7Result.enemies = [] ∧
    c7Result.world.money = c7Game.world.money + WAVE_COMPLETE_REWARD ∧
    c7Result.world.level = c7Game.world.level + 1 ∧
    c7Result.wave_started = false ∧
    c7Result.turrets = c7Game.turrets.map Turret.reset_tidal_upgrade := by
  have hskip : Game.skip_wave 0 c7Game = some c7Result := by rfl
  have h := (skip_wave_spec 0).2 c7Game c7Result rfl hskip
  exact ⟨hskip, h.1, by rfl, h.2.1, h.2.2.1, h.2.2.2.1,
    h.2.2.2.2.2.2.2.1, h.2.2.2.2.2.2.2.2.2⟩

/-! ## Claim C5: target selection picks the first in-range live enemy -/

/-- The claim's selection rule, stated from the spec's words: the index of
the first enemy in iteration order with `health > 0` and Euclidean distance
within the turret's current range.  `Turret.select_target` is proved to
refine this rule. -/
def firstTargetIdx (t : Turret) : List Enemy → Option ℕ
  | [] => none
  | e :: rest =>
      if 0 < e.health ∧ t.in_range e then some 0
      else (firstTargetIdx t rest).map (· + 1)

/-- Source `select_target` hits exactly the enemy `firstTargetIdx` designates:
that enemy is replaced by its hit version (damage, and slow when granted),
the turret's target is set to it, and every other enemy is untouched. -/
theorem select_target_hits_first (t : Turret) (now : ℕ) :
    ∀ (es : List Enemy) (i : ℕ) (e : Enemy),
      firstTargetIdx t es = some i → es[i]? = some e →
      t.select_target now es =
        ({ t with target := some (t.hit now e) }, es.set i (t.hit now e)) := by
  intro es
  induction es with
  | nil => intro i e h; simp [firstTargetIdx] at h
  | cons a rest ih =>
      intro i e hfirst hget
      by_cases h1 : 0 < a.health
      · by_cases h2 : t.in_range a
        · obtain rfl : i = 0 := by
            have := hfirst
            simp [firstTargetIdx, h1, h2] at this
            omega
          obtain rfl : e = a := by simpa using hget.symm
          simp [Turret.select_target, h1, h2]
        · simp only [firstTargetIdx, h1, h2, and_true, true_and, and_false, if_false,
            reduceIte] at hfirst
          obtain ⟨j, hj, hji⟩ := Option.map_eq_some'.mp hfirst
          subst hji
          have hget' : rest[j]? = some e := by simpa using hget
          have hrec := ih j e hj hget'
          simp [Turret.select_target, h1, h2, hrec]
      · simp only [firstTargetIdx, h1, false_and, if_false, reduceIte] at hfirst
        obtain ⟨j, hj, hji⟩ := Option.map_eq_some'.mp hfirst
        subst hji
        have hget' : rest[j]? = some e := by simpa using hget
        have hrec := ih j e hj hget'
        simp [Turret.select_target, h1, hrec]

/-- C5: from Idle with elapsed cooldown, `update` runs `select_target`, which
picks the first enemy in iteration order with `health > 0` within Euclidean
range of the current range stat (not the nearest or lowest-health enemy),
applies the turret's current damage to it immediately at acquisition, and —
when the turret's kind grants a slow effect (purple with positive slow
parameters) — applies the slow to the same enemy at the same instant. -/
theorem select_target_picks_first_in_range (t : Turret) (now : ℕ) :
    (∀ (es : List Enemy) (i : ℕ) (e : Enemy),
      firstTargetIdx t es = some i → es[i]? = some e →
      t.select_target now es =
        ({ t with target := some (t.hit now e) }, es.set i (t.hit now e))) ∧
    (∀ e : Enemy, (t.hit now e).health = e.health - t.damage) ∧
    (∀ e : Enemy, t.turret_type = .purple → 0 < t.slow_amount → 0 < t.slow_duration →
      e.is_slowed = false →
      (t.hit now e).is_slowed = true ∧
      (t.hit now e).speed = e.original_speed * (1 - t.slow_amount) ∧
      (t.hit now e).slow_timer = now + t.slow_duration) ∧
    (∀ es : List Enemy, t.target = none →
      ¬ (t.tidal_active = true ∧ now ≥ t.tidal_end_time) →
      (now : ℤ) - t.last_shot > t.cooldown →
      t.update now es = t.select_target now es) := by
  refine ⟨select_target_hits_first t now, ?_, ?_, ?_⟩
  · intro e
    unfold Turret.hit
    split_ifs with h
    · simp [Enemy.apply_slow]
      split_ifs <;> rfl
    · rfl
  · intro e hty hamt hdur hslow
    simp [Turret.hit, hty, hamt, hdur, Enemy.apply_slow, hslow]
  · intro es htarget htidal hcool
    simp [Turret.update, htidal, htarget, hcool]

/-- The C5 witness turret: a purple turret (range 120, damage 5, slow
30% for 500 ms) placed at (240, 240) at tick 0. -/
def c5Turret : Turret := mkTurret .purple 240 240 0

/-- A dead enemy inside range (iteration position 0): skipped. -/
def c5Dead : Enemy :=
  { mkEnemy .weak [(0, 240), (600, 240)] .normal with pos := (250, 240), health := 0 }

/-- A live enemy out of range (iteration position 1): skipped. -/
def c5Far : Enemy :=
  { mkEnemy .medium [(0, 240), (600, 240)] .normal with pos := (500, 240) }

/-- A live enemy at distance 60 < 120 (iteration position 2): the first
match, although it is neither the nearest candidate position nor unique. -/
def c5Near : Enemy :=
  { mkEnemy .medium [(0, 240), (600, 240)] .normal with pos := (300, 240) }

/-- Witness for C5 on the concrete roster [dead, far, near]: the selection
rule designates index 2; `select_target` damages and slows exactly that
enemy and `update` from Idle with elapsed cooldown (2000 − 0 > 1700) runs
it. -/
theorem select_target_picks_first_witness :
    firstTargetIdx c5Turret [c5Dead, c5Far, c5Near] = some 2 ∧
    c5Turret.select_target 2000 [c5Dead, c5Far, c5Near] =
      ({ c5Turret with target := some (c5Turret.hit 2000 c5Near) },
        [c5Dead, c5Far, c5Near].set 2 (c5Turret.hit 2000 c5Near)) ∧
    (c5Turret.hit 2000 c5Near).health = c5Near.health - c5Turret.damage ∧
    (c5Turret.hit 2000 c5Near).is_slowed = true ∧
    (c5Turret.hit 2000 c5Near).speed = c5Near.original_speed * (1 - c5Turret.slow_amount) ∧
    (c5Turret.hit 2000 c5Near).slow_timer = 2000 + c5Turret.slow_duration ∧
    c5Turret.update 2000 [c5Dead, c5Far, c5Near] =
      c5Turret.select_target 2000 [c5Dead, c5Far, c5Near] := by
  have h := select_target_picks_first_in_range c5Turret 2000
  have hfirst : firstTargetIdx c5Turret [c5Dead, c5Far, c5Near] = some 2 := by
    norm_num [firstTargetIdx, Turret.in_range, c5Turret, c5Dead, c5Far, c5Near,
      mkTurret, mkEnemy, turretLevelData, TURRET_DATA, enemyBaseHealth,
      enemyBaseSpeed, healthMultiplier, speedMultiplier]
  have hslow := h.2.2.1 c5Near rfl
    (by norm_num [c5Turret, mkTurret, turretLevelData, TURRET_DATA])
    (by norm_num [c5Turret, mkTurret, turretLevelData, TURRET_DATA])
    rfl
  refine ⟨hfirst, h.1 _ 2 c5Near hfirst rfl, h.2.1 c5Near,
    hslow.1, hslow.2.1, hslow.2.2, ?_⟩
  exact h.2.2.2 _ rfl (by simp [c5Turret, mkTurret])
    (by norm_num [c5Turret, mkTurret, turretLevelData, TURRET_DATA])

end TowerDefense
